import Mathlib

/-!
Shallow embedding of the Flask blog application in `main.py`
(models `User`, `BlogPost`, `Comment`, the session, and the request
handlers `register`, `login`, `logout`, `show_post`, `add_new_post`,
`edit_post`, `delete_post`, together with the `admin_only` decorator),
and proofs of the claims of the specification about it.
-/

namespace Blog

/-- Modelled from the spec: the werkzeug functions `generate_password_hash` /
`check_password_hash` (PBKDF2 with a per-hash random salt) are library
code outside this repository.  The hash is modelled as an ideal salted
one-way hash: the derived key is treated as injective in the password,
and verification compares the key derived from the candidate password
with the stored key. -/
structure PwHash where
  salt : Nat
  key : String
deriving Repr, DecidableEq

/-- Modelled from the spec: `generate_password_hash(password, method=pbkdf2 sha256, salt_length=8)`.
The random salt is passed in explicitly. -/
def generate_password_hash (password : String) (salt : Nat) : PwHash :=
  { salt := salt, key := password }

/-- Modelled from the spec: `check_password_hash(stored, password)`. -/
def check_password_hash (stored : PwHash) (password : String) : Bool :=
  stored.key == password

/-- `class User(UserMixin, db.Model)`: id (integer primary key),
name, email (unique), password (stored hash). -/
structure User where
  id : Nat
  name : String
  email : String
  password : PwHash
deriving Repr, DecidableEq

/-- `class BlogPost(db.Model)`: id, author_id (nullable FK to blog_users),
title (unique), subtitle, date (string fixed at creation), body, img_url. -/
structure BlogPost where
  id : Nat
  author_id : Option Nat
  title : String
  subtitle : String
  date : String
  body : String
  img_url : String
deriving Repr, DecidableEq

/-- `class Comment(db.Model)`: id, comment_id (nullable FK to blog_users,
the commenting user), post_id (nullable FK to blog_posts), text. -/
structure Comment where
  id : Nat
  comment_id : Option Nat
  post_id : Option Nat
  text : String
deriving Repr, DecidableEq

/-- The SQLite database: the three tables plus the autoincrement
counters for the surrogate primary keys. -/
structure DB where
  users : List User
  posts : List BlogPost
  comments : List Comment
  nextUserId : Nat
  nextPostId : Nat
  nextCommentId : Nat
deriving Repr, DecidableEq

/-- The database right after `db.create_all()`: empty tables,
autoincrement counters start at 1. -/
def DB.empty : DB :=
  { users := [], posts := [], comments := [],
    nextUserId := 1, nextPostId := 1, nextCommentId := 1 }

/-- `User.query.filter_by(email=email).first()`. -/
def findUserByEmail (db : DB) (email : String) : Option User :=
  db.users.find? (fun u => u.email == email)

/-- `User.query.get(user_id)` (the `load_user` user loader). -/
def findUserById (db : DB) (uid : Nat) : Option User :=
  db.users.find? (fun u => u.id == uid)

/-- `BlogPost.query.get(post_id)`. -/
def findPostById (db : DB) (pid : Nat) : Option BlogPost :=
  db.posts.find? (fun p => p.id == pid)

/-- Python exceptions that can escape a handler: a SQLAlchemy unique
constraint violation on commit, `db.session.delete(None)`, or an
`AttributeError` from dereferencing `None`. -/
inductive DBError where
  | constraintViolation (column : String)
  | unmappedInstance
  | attributeOfNone (attr : String)
deriving Repr, DecidableEq

/-- `db.session.add(new_user); db.session.commit()`: the UNIQUE
constraint on `blog_users.email` fires at commit time. -/
def createUser (db : DB) (name email : String) (password : PwHash) :
    Except DBError (User × DB) :=
  if db.users.any (fun u => u.email == email) then
    .error (.constraintViolation "blog_users.email")
  else
    let u : User := { id := db.nextUserId, name := name, email := email, password := password }
    .ok (u, { db with users := db.users ++ [u], nextUserId := db.nextUserId + 1 })

/-- `db.session.add(new_post); db.session.commit()`: the UNIQUE
constraint on `blog_posts.title` fires at commit time. -/
def createPost (db : DB) (title subtitle body img_url : String)
    (author_id : Option Nat) (date : String) : Except DBError (BlogPost × DB) :=
  if db.posts.any (fun p => p.title == title) then
    .error (.constraintViolation "blog_posts.title")
  else
    let p : BlogPost :=
      { id := db.nextPostId, author_id := author_id, title := title,
        subtitle := subtitle, date := date, body := body, img_url := img_url }
    .ok (p, { db with posts := db.posts ++ [p], nextPostId := db.nextPostId + 1 })

/-- `Comment(text=..., comment=current_user, parent_post=requested_post)`
followed by add and commit; comments have no unique constraint. -/
def createComment (db : DB) (user_id post_id : Option Nat) (text : String) :
    Comment × DB :=
  let c : Comment :=
    { id := db.nextCommentId, comment_id := user_id, post_id := post_id, text := text }
  (c, { db with comments := db.comments ++ [c], nextCommentId := db.nextCommentId + 1 })

/-- Committing in-place field updates on a fetched post: the UNIQUE
constraint on `blog_posts.title` fires if another row has the new title. -/
def updatePost (db : DB) (post : BlogPost) : Except DBError DB :=
  if db.posts.any (fun q => q.id != post.id && q.title == post.title) then
    .error (.constraintViolation "blog_posts.title")
  else
    .ok { db with posts := db.posts.map (fun q => if q.id == post.id then post else q) }

/-- `db.session.delete(post); db.session.commit()`: removes the row; the
ORM nullifies the parent-post reference of the comments of the deleted post. -/
def deletePostById (db : DB) (pid : Nat) : DB :=
  { db with
    posts := db.posts.filter (fun p => p.id != pid),
    comments := db.comments.map
      (fun c => if c.post_id == some pid then { c with post_id := none } else c) }

/-- Per-request application state: the database, the session binding
(`login_user` / `logout_user` set it to a user id or clear it), and the
stack of flash messages. -/
structure AppState where
  db : DB
  session : Option Nat
  flash : List String
deriving Repr, DecidableEq

/-- The state at first startup: fresh database, anonymous session. -/
def initialState : AppState :=
  { db := DB.empty, session := none, flash := [] }

/-- The flask_login `current_user`: resolve the stored session id through
the `load_user` loader; `none` is the anonymous user. -/
def current_user (s : AppState) : Option User :=
  s.session.bind (fun uid => findUserById s.db uid)

/-- The responses the handlers produce: `redirect(url_for(endpoint))`,
`render_template(template)`, the post page rendered with an optional
post, or `abort(code)`. -/
inductive Response where
  | redirect (endpoint : String)
  | renderPage (template : String)
  | renderPost (post : Option BlogPost)
  | abort (code : Nat)
deriving Repr, DecidableEq

end Blog

namespace Blog

/-- The `admin_only` decorator:
`if not current_user.is_authenticated or current_user.id != 1: return abort(403)`. -/
def admin_only (f : AppState → Except DBError (Response × AppState)) (s : AppState) :
    Except DBError (Response × AppState) :=
  match current_user s with
  | none => .ok (.abort 403, s)
  | some u => if u.id != 1 then .ok (.abort 403, s) else f s

/-- `current_user.is_authenticated and current_user.id == 1`. -/
def isAdmin (s : AppState) : Bool :=
  match current_user s with
  | none => false
  | some u => u.id == 1

/-- The `RegisterForm` field data (name, email, password).  The outcome
of `form.validate_on_submit()` is passed to each handler as an explicit
boolean, since the WTForms validation logic lives outside `main.py`. -/
structure RegisterForm where
  name : String
  email : String
  password : String
deriving Repr, DecidableEq

/-- The `LoginForm` field data. -/
structure LoginForm where
  email : String
  password : String
deriving Repr, DecidableEq

/-- The `CreatePostForm` field data. -/
structure CreatePostForm where
  title : String
  subtitle : String
  img_url : String
  body : String
deriving Repr, DecidableEq

/-- The `CommentForm` field data. -/
structure CommentForm where
  comment : String
deriving Repr, DecidableEq

/-- Flash message of the duplicate-email branch of `register`. -/
def registerDupFlash : String :=
  "This email already exist, You have already register you should login instead"

/-- Flash message of the unknown-email branch of `login`. -/
def noEmailFlash : String := "This email does not exist, Try Again"

/-- Flash message of the wrong-password branch of `login`. -/
def wrongPasswordFlash : String := "Incorrect Password"

/-- Flash message of the unauthenticated-comment branch of `show_post`. -/
def commentLoginFlash : String := "You need to login or register to comment"

/-- The `register` handler (`GET,POST /register`).  `valid` is the
outcome of `form.validate_on_submit()`; `salt` is the random salt drawn
by `generate_password_hash`. -/
def register (form : RegisterForm) (valid : Bool) (salt : Nat) (s : AppState) :
    Except DBError (Response × AppState) :=
  if valid then
    match findUserByEmail s.db form.email with
    | some _ =>
        .ok (.redirect "login", { s with flash := registerDupFlash :: s.flash })
    | none => do
        let hash_password := generate_password_hash form.password salt
        let (new_user, db') ← createUser s.db form.name form.email hash_password
        .ok (.redirect "get_all_posts", { s with db := db', session := some new_user.id })
  else
    .ok (.renderPage "register.html", s)

/-- The `login` handler (`GET,POST /login`). -/
def login (form : LoginForm) (valid : Bool) (s : AppState) :
    Except DBError (Response × AppState) :=
  if valid then
    match findUserByEmail s.db form.email with
    | some user =>
        if check_password_hash user.password form.password then
          .ok (.redirect "get_all_posts", { s with session := some user.id })
        else
          .ok (.renderPage "login.html", { s with flash := wrongPasswordFlash :: s.flash })
    | none =>
        .ok (.renderPage "login.html", { s with flash := noEmailFlash :: s.flash })
  else
    .ok (.renderPage "login.html", s)

/-- The `logout` handler (`GET /logout`). -/
def logout (s : AppState) : Except DBError (Response × AppState) :=
  .ok (.redirect "get_all_posts", { s with session := none })

/-- The `show_post` handler (`GET,POST /post/<int:post_id>`).
`requested_post` is fetched once at entry; a valid comment submission
from an anonymous session flashes and redirects to login, otherwise a
comment bound to the current user and the fetched post is committed and
the post page is rendered with the fetched post. -/
def show_post (post_id : Nat) (form : CommentForm) (valid : Bool) (s : AppState) :
    Except DBError (Response × AppState) :=
  let requested_post := findPostById s.db post_id
  if valid then
    match current_user s with
    | none =>
        .ok (.redirect "login", { s with flash := commentLoginFlash :: s.flash })
    | some u =>
        let (_, db') :=
          createComment s.db (some u.id) (requested_post.map BlogPost.id) form.comment
        .ok (.renderPost requested_post, { s with db := db' })
  else
    .ok (.renderPost requested_post, s)

/-- The body of the `add_new_post` handler (`GET,POST /new-post`),
before the `admin_only` guard is applied.  `today` is
`date.today().strftime("%B %d, %Y")`. -/
def add_new_post (form : CreatePostForm) (valid : Bool) (today : String) (s : AppState) :
    Except DBError (Response × AppState) :=
  if valid then do
    let (_, db') ←
      createPost s.db form.title form.subtitle form.body form.img_url
        ((current_user s).map User.id) today
    .ok (.redirect "get_all_posts", { s with db := db' })
  else
    .ok (.renderPage "make-post.html", s)

/-- The body of the `edit_post` handler (`GET,POST /edit-post/<int:post_id>`),
before the `admin_only` guard.  Fetching a missing post raises an
`AttributeError` when the form is pre-filled from `post.title`; on a valid
submission title/subtitle/img_url/author/body are overwritten (id and date
untouched) and committed, then redirect to the show page of the post. -/
def edit_post (post_id : Nat) (form : CreatePostForm) (valid : Bool) (s : AppState) :
    Except DBError (Response × AppState) :=
  match findPostById s.db post_id with
  | none => .error (.attributeOfNone "title")
  | some post =>
      if valid then do
        let post' : BlogPost :=
          { post with
            title := form.title, subtitle := form.subtitle,
            img_url := form.img_url,
            author_id := (current_user s).map User.id,
            body := form.body }
        let db' ← updatePost s.db post'
        .ok (.redirect ("show_post/" ++ toString post.id), { s with db := db' })
      else
        .ok (.renderPage "make-post.html", s)

/-- The body of the `delete_post` handler (`GET,POST /delete/<int:post_id>`),
before the `admin_only` guard; `db.session.delete(None)` raises. -/
def delete_post (post_id : Nat) (s : AppState) :
    Except DBError (Response × AppState) :=
  match findPostById s.db post_id with
  | none => .error .unmappedInstance
  | some _ =>
      .ok (.redirect "get_all_posts", { s with db := deletePostById s.db post_id })

/-- `/new-post` as routed: the handler wrapped by `admin_only`. -/
def new_post_route (form : CreatePostForm) (valid : Bool) (today : String) :
    AppState → Except DBError (Response × AppState) :=
  admin_only (add_new_post form valid today)

/-- `/edit-post/<int:post_id>` as routed. -/
def edit_post_route (post_id : Nat) (form : CreatePostForm) (valid : Bool) :
    AppState → Except DBError (Response × AppState) :=
  admin_only (edit_post post_id form valid)

/-- `/delete/<int:post_id>` as routed. -/
def delete_post_route (post_id : Nat) :
    AppState → Except DBError (Response × AppState) :=
  admin_only (delete_post post_id)

/-- States reachable from startup through the exposed state-changing
operations (routes that only render do not change the state). -/
inductive Reachable : AppState → Prop where
  | init : Reachable initialState
  | stepRegister {s s' : AppState} {r : Response}
      (form : RegisterForm) (valid : Bool) (salt : Nat) :
      Reachable s → register form valid salt s = .ok (r, s') → Reachable s'
  | stepLogin {s s' : AppState} {r : Response} (form : LoginForm) (valid : Bool) :
      Reachable s → login form valid s = .ok (r, s') → Reachable s'
  | stepLogout {s s' : AppState} {r : Response} :
      Reachable s → logout s = .ok (r, s') → Reachable s'
  | stepShowPost {s s' : AppState} {r : Response}
      (pid : Nat) (form : CommentForm) (valid : Bool) :
      Reachable s → show_post pid form valid s = .ok (r, s') → Reachable s'
  | stepNewPost {s s' : AppState} {r : Response}
      (form : CreatePostForm) (valid : Bool) (today : String) :
      Reachable s → new_post_route form valid today s = .ok (r, s') → Reachable s'
  | stepEditPost {s s' : AppState} {r : Response}
      (pid : Nat) (form : CreatePostForm) (valid : Bool) :
      Reachable s → edit_post_route pid form valid s = .ok (r, s') → Reachable s'
  | stepDeletePost {s s' : AppState} {r : Response} (pid : Nat) :
      Reachable s → delete_post_route pid s = .ok (r, s') → Reachable s'

/-! Concrete sample data used by witness theorems. -/

/-- A sample administrator account (the first user ever created, id 1). -/
def adminUser : User :=
  { id := 1, name := "Root", email := "root@mail.com",
    password := generate_password_hash "rootpw" 3 }

/-- A sample ordinary account (id 2). -/
def alice : User :=
  { id := 2, name := "Alice", email := "alice@mail.com",
    password := generate_password_hash "alicepw" 7 }

/-- A sample post authored by the administrator. -/
def samplePost : BlogPost :=
  { id := 1, author_id := some 1, title := "First Post", subtitle := "Sub",
    date := "May 01, 2023", body := "Body", img_url := "http://img" }

/-- A sample database with two users and one post. -/
def baseDB : DB :=
  { users := [adminUser, alice], posts := [samplePost], comments := [],
    nextUserId := 3, nextPostId := 2, nextCommentId := 1 }

/-- A request state whose session is bound to the ordinary user. -/
def aliceState : AppState := { db := baseDB, session := some 2, flash := [] }

/-- A request state whose session is bound to the administrator. -/
def adminState : AppState := { db := baseDB, session := some 1, flash := [] }

/-- A request state with an anonymous session. -/
def anonState : AppState := { db := baseDB, session := none, flash := [] }

/-! Helper lemmas shared by the claim theorems. -/

lemma admin_only_of_not_admin (s : AppState) (h : isAdmin s = false)
    (f : AppState → Except DBError (Response × AppState)) :
    admin_only f s = .ok (.abort 403, s) := by
  unfold admin_only
  unfold isAdmin at h
  cases hcu : current_user s with
  | none => simp
  | some u =>
      rw [hcu] at h
      simp at h
      simp [h]

lemma admin_only_of_admin (s : AppState) (h : isAdmin s = true)
    (f : AppState → Except DBError (Response × AppState)) :
    admin_only f s = f s := by
  unfold admin_only
  unfold isAdmin at h
  cases hcu : current_user s with
  | none => rw [hcu] at h; exact absurd h (by simp)
  | some u =>
      rw [hcu] at h
      simp at h
      simp [h]

lemma current_user_of_admin (s : AppState) (h : isAdmin s = true) :
    ∃ u, current_user s = some u ∧ u.id = 1 := by
  unfold isAdmin at h
  cases hcu : current_user s with
  | none => rw [hcu] at h; exact absurd h (by simp)
  | some u =>
      rw [hcu] at h
      exact ⟨u, rfl, by simpa using h⟩

lemma findUserByEmail_none_any (db : DB) (email : String)
    (h : findUserByEmail db email = none) :
    db.users.any (fun u => u.email == email) = false := by
  unfold findUserByEmail at h
  rw [List.find?_eq_none] at h
  rw [List.any_eq_false]
  intro u hu
  exact h u hu

/-- The user record created by the fresh-email branch of `register`. -/
def registeredUser (db : DB) (form : RegisterForm) (salt : Nat) : User :=
  { id := db.nextUserId, name := form.name, email := form.email,
    password := generate_password_hash form.password salt }

lemma register_dup_eq (s : AppState) (form : RegisterForm) (salt : Nat) (u : User)
    (h : findUserByEmail s.db form.email = some u) :
    register form true salt s =
      .ok (.redirect "login", { s with flash := registerDupFlash :: s.flash }) := by
  unfold register
  simp [h]

lemma register_fresh_eq (s : AppState) (form : RegisterForm) (salt : Nat)
    (h : findUserByEmail s.db form.email = none) :
    register form true salt s =
      .ok (.redirect "get_all_posts",
           { s with
             db := { s.db with
               users := s.db.users ++ [registeredUser s.db form salt],
               nextUserId := s.db.nextUserId + 1 },
             session := some s.db.nextUserId }) := by
  unfold register createUser
  simp [h, findUserByEmail_none_any s.db form.email h, registeredUser]
  rfl

/-- C1: a request to any of the admin-guarded routes (`/new-post`,
`/edit-post/{id}`, `/delete/{id}`) from an anonymous session or one bound
to a non-administrator user gets HTTP 403, the wrapped handler body never
runs (the guard result is the same for every handler `f`), and the
state — hence every table — is unchanged. -/
theorem admin_routes_reject_non_admin (s : AppState) (h : isAdmin s = false)
    (form : CreatePostForm) (valid : Bool) (today : String) (pid pid' : Nat) :
    (∀ f, admin_only f s = .ok (.abort 403, s)) ∧
    new_post_route form valid today s = .ok (.abort 403, s) ∧
    edit_post_route pid form valid s = .ok (.abort 403, s) ∧
    delete_post_route pid' s = .ok (.abort 403, s) := by
  refine ⟨fun f => admin_only_of_not_admin s h f, ?_, ?_, ?_⟩
  · exact admin_only_of_not_admin s h _
  · exact admin_only_of_not_admin s h _
  · exact admin_only_of_not_admin s h _

/-- Witness for C1 at a concrete non-admin session. -/
theorem admin_routes_reject_non_admin_witness :
    isAdmin aliceState = false ∧
    new_post_route ⟨"t", "s", "u", "b"⟩ true "May 02, 2023" aliceState =
      .ok (.abort 403, aliceState) ∧
    delete_post_route 1 aliceState = .ok (.abort 403, aliceState) :=
  ⟨by decide,
   (admin_routes_reject_non_admin aliceState (by decide)
      ⟨"t", "s", "u", "b"⟩ true "May 02, 2023" 1 1).2.1,
   (admin_routes_reject_non_admin aliceState (by decide)
      ⟨"t", "s", "u", "b"⟩ true "May 02, 2023" 1 1).2.2.2⟩

/-- C2: a valid registration whose email already belongs to a user
creates no new User (the whole state changes only by the flash message)
and redirects to login; a valid registration with a fresh email appends
exactly one User with that email, binds the session to it, and redirects
to the post list. -/
theorem register_branches (s : AppState) (form : RegisterForm) (salt : Nat) :
    (∀ u, findUserByEmail s.db form.email = some u →
        register form true salt s =
          .ok (.redirect "login", { s with flash := registerDupFlash :: s.flash })) ∧
    (findUserByEmail s.db form.email = none →
        ∃ new_user db',
          new_user.email = form.email ∧
          db'.users = s.db.users ++ [new_user] ∧
          db'.posts = s.db.posts ∧
          db'.comments = s.db.comments ∧
          register form true salt s =
            .ok (.redirect "get_all_posts",
                 { s with db := db', session := some new_user.id })) := by
  constructor
  · intro u hu
    exact register_dup_eq s form salt u hu
  · intro h
    refine ⟨registeredUser s.db form salt,
           ({ s.db with
              users := s.db.users ++ [registeredUser s.db form salt],
              nextUserId := s.db.nextUserId + 1 } : DB),
           rfl, rfl, rfl, rfl, ?_⟩
    exact register_fresh_eq s form salt h

/-- Witness for C2: a duplicate email (that of the admin) and a fresh email. -/
theorem register_branches_witness :
    register ⟨"Bob", "root@mail.com", "bobpw"⟩ true 5 anonState =
      .ok (.redirect "login", { anonState with flash := registerDupFlash :: anonState.flash }) ∧
    (∃ new_user db',
        new_user.email = "bob@mail.com" ∧
        db'.users = anonState.db.users ++ [new_user] ∧
        db'.posts = anonState.db.posts ∧
        db'.comments = anonState.db.comments ∧
        register ⟨"Bob", "bob@mail.com", "bobpw"⟩ true 5 anonState =
          .ok (.redirect "get_all_posts",
               { anonState with db := db', session := some new_user.id })) :=
  ⟨(register_branches anonState ⟨"Bob", "root@mail.com", "bobpw"⟩ 5).1 adminUser (by decide),
   (register_branches anonState ⟨"Bob", "bob@mail.com", "bobpw"⟩ 5).2 (by decide)⟩

/-- C4: the user created by registration stores a hash that verifies
against the exact registration password and fails against any other
string. -/
theorem registration_password_roundtrip (s : AppState) (form : RegisterForm) (salt : Nat)
    (other : String) (hfresh : findUserByEmail s.db form.email = none)
    (hne : other ≠ form.password) :
    ∃ resp s' new_user,
      register form true salt s = .ok (resp, s') ∧
      s'.db.users = s.db.users ++ [new_user] ∧
      check_password_hash new_user.password form.password = true ∧
      check_password_hash new_user.password other = false := by
  refine ⟨_, _, registeredUser s.db form salt,
          register_fresh_eq s form salt hfresh, rfl, ?_, ?_⟩
  · simp [check_password_hash, registeredUser, generate_password_hash]
  · simp [check_password_hash, registeredUser, generate_password_hash]
    exact fun hcon => hne hcon.symm

/-- Witness for C4 at a concrete fresh registration. -/
theorem registration_password_roundtrip_witness :
    ∃ resp s' new_user,
      register ⟨"Bob", "bob@mail.com", "bobpw"⟩ true 5 anonState = .ok (resp, s') ∧
      s'.db.users = anonState.db.users ++ [new_user] ∧
      check_password_hash new_user.password "bobpw" = true ∧
      check_password_hash new_user.password "wrong" = false :=
  registration_password_roundtrip anonState ⟨"Bob", "bob@mail.com", "bobpw"⟩ 5 "wrong"
    (by decide) (by decide)

/-- C5: valid login with an unknown email flashes and leaves the session
unchanged; with a known email but failing verification flashes and leaves
the session unchanged; with succeeding verification binds the session to
that user and redirects to the post list. -/
theorem login_branches (s : AppState) (form : LoginForm) :
    (findUserByEmail s.db form.email = none →
        login form true s =
          .ok (.renderPage "login.html", { s with flash := noEmailFlash :: s.flash })) ∧
    (∀ u, findUserByEmail s.db form.email = some u →
        check_password_hash u.password form.password = false →
        login form true s =
          .ok (.renderPage "login.html", { s with flash := wrongPasswordFlash :: s.flash })) ∧
    (∀ u, findUserByEmail s.db form.email = some u →
        check_password_hash u.password form.password = true →
        login form true s =
          .ok (.redirect "get_all_posts", { s with session := some u.id })) := by
  refine ⟨?_, ?_, ?_⟩
  · intro h
    unfold login
    simp [h]
  · intro u hu hpw
    unfold login
    simp [hu, hpw]
  · intro u hu hpw
    unfold login
    simp [hu, hpw]

/-- Witness for C5: the three login branches at concrete inputs. -/
theorem login_branches_witness :
    login ⟨"nobody@mail.com", "x"⟩ true anonState =
      .ok (.renderPage "login.html",
           { anonState with flash := noEmailFlash :: anonState.flash }) ∧
    login ⟨"alice@mail.com", "bad"⟩ true anonState =
      .ok (.renderPage "login.html",
           { anonState with flash := wrongPasswordFlash :: anonState.flash }) ∧
    login ⟨"alice@mail.com", "alicepw"⟩ true anonState =
      .ok (.redirect "get_all_posts", { anonState with session := some alice.id }) :=
  ⟨(login_branches anonState ⟨"nobody@mail.com", "x"⟩).1 (by decide),
   (login_branches anonState ⟨"alice@mail.com", "bad"⟩).2.1 alice (by decide) (by decide),
   (login_branches anonState ⟨"alice@mail.com", "alicepw"⟩).2.2 alice (by decide) (by decide)⟩

/-- C3: a valid comment submission from an anonymous session creates no
Comment (only a flash message is added) and redirects to login; from an
authenticated session it appends exactly one Comment bound to the
current user and the requested post and re-renders the same post page. -/
theorem comment_requires_login (pid : Nat) (form : CommentForm) (s : AppState) :
    (current_user s = none →
        show_post pid form true s =
          .ok (.redirect "login", { s with flash := commentLoginFlash :: s.flash })) ∧
    (∀ u, current_user s = some u →
        ∃ c : Comment,
          c.comment_id = some u.id ∧
          c.post_id = (findPostById s.db pid).map BlogPost.id ∧
          c.text = form.comment ∧
          show_post pid form true s =
            .ok (.renderPost (findPostById s.db pid),
                 { s with
                   db := { s.db with
                     comments := s.db.comments ++ [c],
                     nextCommentId := s.db.nextCommentId + 1 } })) := by
  constructor
  · intro h
    unfold show_post
    simp [h]
  · intro u hu
    refine ⟨{ id := s.db.nextCommentId, comment_id := some u.id,
              post_id := (findPostById s.db pid).map BlogPost.id,
              text := form.comment }, rfl, rfl, rfl, ?_⟩
    unfold show_post createComment
    simp [hu]

/-- Witness for C3: an anonymous and an authenticated comment on post 1. -/
theorem comment_requires_login_witness :
    show_post 1 ⟨"Nice"⟩ true anonState =
      .ok (.redirect "login",
           { anonState with flash := commentLoginFlash :: anonState.flash }) ∧
    (∃ c : Comment,
        c.comment_id = some alice.id ∧
        c.post_id = (findPostById aliceState.db 1).map BlogPost.id ∧
        c.text = "Nice" ∧
        show_post 1 ⟨"Nice"⟩ true aliceState =
          .ok (.renderPost (findPostById aliceState.db 1),
               { aliceState with
                 db := { aliceState.db with
                   comments := aliceState.db.comments ++ [c],
                   nextCommentId := aliceState.db.nextCommentId + 1 } })) :=
  ⟨(comment_requires_login 1 ⟨"Nice"⟩ anonState).1 (by decide),
   (comment_requires_login 1 ⟨"Nice"⟩ aliceState).2 alice (by decide)⟩

/-- C10: a valid comment submission by an authenticated user on a
missing post id still creates a Comment, with a null parent-post
reference, and the post page is rendered with no post. -/
theorem orphan_comment_on_missing_post (s : AppState) (pid : Nat) (form : CommentForm)
    (u : User) (hauth : current_user s = some u)
    (hpost : findPostById s.db pid = none) :
    ∃ c : Comment,
      c.post_id = none ∧ c.comment_id = some u.id ∧ c.text = form.comment ∧
      show_post pid form true s =
        .ok (.renderPost none,
             { s with
               db := { s.db with
                 comments := s.db.comments ++ [c],
                 nextCommentId := s.db.nextCommentId + 1 } }) := by
  refine ⟨{ id := s.db.nextCommentId, comment_id := some u.id, post_id := none,
            text := form.comment }, rfl, rfl, rfl, ?_⟩
  unfold show_post createComment
  simp [hauth, hpost]

/-- Witness for C10: Alice comments on the nonexistent post 99. -/
theorem orphan_comment_on_missing_post_witness :
    ∃ c : Comment,
      c.post_id = none ∧ c.comment_id = some alice.id ∧ c.text = "Hello" ∧
      show_post 99 ⟨"Hello"⟩ true aliceState =
        .ok (.renderPost none,
             { aliceState with
               db := { aliceState.db with
                 comments := aliceState.db.comments ++ [c],
                 nextCommentId := aliceState.db.nextCommentId + 1 } }) :=
  orphan_comment_on_missing_post aliceState 99 ⟨"Hello"⟩ alice (by decide) (by decide)

/-- The post record as overwritten by a valid edit submission: title,
subtitle, img_url, author and body are replaced, id and date are kept. -/
def editedPost (s : AppState) (form : CreatePostForm) (post : BlogPost) : BlogPost :=
  { post with
    title := form.title, subtitle := form.subtitle,
    img_url := form.img_url,
    author_id := (current_user s).map User.id,
    body := form.body }

lemma edit_post_ok (s : AppState) (pid : Nat) (form : CreatePostForm) (post : BlogPost)
    (hpost : findPostById s.db pid = some post)
    (hfresh : s.db.posts.any
        (fun q => q.id != post.id && q.title == form.title) = false) :
    edit_post pid form true s =
      .ok (.redirect ("show_post/" ++ toString post.id),
           { s with
             db := { s.db with
               posts := s.db.posts.map
                 (fun q => if q.id == post.id then editedPost s form post else q) } }) := by
  unfold edit_post updatePost
  rw [hpost]
  simp only [editedPost, if_true]
  simp [hfresh]
  rfl

lemma find?_map_replace (l : List BlogPost) (pid : Nat) (post post' : BlogPost)
    (h : l.find? (fun q => q.id == pid) = some post) (hid : post'.id = post.id) :
    (l.map (fun q => if q.id == post.id then post' else q)).find?
        (fun q => q.id == pid) = some post' := by
  have hpid : post.id = pid := by simpa using List.find?_some h
  induction l with
  | nil => simp at h
  | cons a l ih =>
      by_cases ha : a.id = pid
      · rw [List.find?_cons_of_pos _ (by simpa using ha)] at h
        have haeq : a = post := by simpa using h
        subst haeq
        have hhead : (if (a.id == a.id) = true then post' else a) = post' := by simp
        simp only [List.map_cons, hhead]
        rw [List.find?_cons_of_pos _ (by simp [hid, hpid])]
      · rw [List.find?_cons_of_neg _ (by simpa using ha)] at h
        have hhead : (if (a.id == post.id) = true then post' else a) = a := by
          simp [hpid, ha]
        simp only [List.map_cons, hhead]
        rw [List.find?_cons_of_neg _ (by simpa using ha)]
        exact ih h

lemma find?_map_replace_other (l : List BlogPost) (pid qid : Nat) (post' : BlogPost)
    (hne : qid ≠ pid) (hid : post'.id = pid) :
    (l.map (fun q => if q.id == pid then post' else q)).find? (fun q => q.id == qid) =
      l.find? (fun q => q.id == qid) := by
  induction l with
  | nil => simp
  | cons a l ih =>
      by_cases ha : a.id = pid
      · have hhead : (if (a.id == pid) = true then post' else a) = post' := by
          simp [ha]
        simp only [List.map_cons, hhead]
        rw [List.find?_cons_of_neg _ (by simp [hid]; omega)]
        rw [List.find?_cons_of_neg _ (by simp [ha]; omega)]
        exact ih
      · have hhead : (if (a.id == pid) = true then post' else a) = a := by
          simp [ha]
        simp only [List.map_cons, hhead]
        by_cases hq : a.id = qid
        · rw [List.find?_cons_of_pos _ (by simpa using hq),
              List.find?_cons_of_pos _ (by simpa using hq)]
        · rw [List.find?_cons_of_neg _ (by simpa using hq),
              List.find?_cons_of_neg _ (by simpa using hq)]
          exact ih

/-- C6: a valid edit of an existing post through the admin-guarded route
overwrites the author of the stored post with the current (admin) user,
whatever the original author was. -/
theorem edit_post_reassigns_author (s : AppState) (pid : Nat) (form : CreatePostForm)
    (post : BlogPost) (hadmin : isAdmin s = true)
    (hpost : findPostById s.db pid = some post)
    (hfresh : s.db.posts.any
        (fun q => q.id != post.id && q.title == form.title) = false) :
    ∃ s' post',
      edit_post_route pid form true s =
        .ok (.redirect ("show_post/" ++ toString post.id), s') ∧
      findPostById s'.db pid = some post' ∧
      post'.author_id = (current_user s).map User.id ∧
      post'.author_id = some 1 := by
  obtain ⟨u, hcu, hid⟩ := current_user_of_admin s hadmin
  refine ⟨{ s with
            db := { s.db with
              posts := s.db.posts.map
                (fun q => if q.id == post.id then editedPost s form post else q) } },
          editedPost s form post, ?_, ?_, rfl, ?_⟩
  · rw [edit_post_route, admin_only_of_admin s hadmin]
    exact edit_post_ok s pid form post hpost hfresh
  · unfold findPostById
    exact find?_map_replace s.db.posts pid post (editedPost s form post) hpost rfl
  · rw [editedPost]
    rw [hcu]
    simp [hid]

/-- Witness for C6: the admin edits post 1, originally authored by the
admin record itself but matched with arbitrary original author by the
theorem. -/
theorem edit_post_reassigns_author_witness :
    ∃ s' post',
      edit_post_route 1 ⟨"New Title", "NS", "http://img2", "NB"⟩ true adminState =
        .ok (.redirect ("show_post/" ++ toString samplePost.id), s') ∧
      findPostById s'.db 1 = some post' ∧
      post'.author_id = (current_user adminState).map User.id ∧
      post'.author_id = some 1 :=
  edit_post_reassigns_author adminState 1 ⟨"New Title", "NS", "http://img2", "NB"⟩
    samplePost (by decide) (by decide) (by decide)

/-- C7: a valid edit of an existing post changes only title, subtitle,
image URL, body and author; the id and creation date of the post are kept,
all other posts, the users and the comments are untouched, and the
response redirects to the show page of the post. -/
theorem edit_post_frame (s : AppState) (pid : Nat) (form : CreatePostForm)
    (post : BlogPost) (hadmin : isAdmin s = true)
    (hpost : findPostById s.db pid = some post)
    (hfresh : s.db.posts.any
        (fun q => q.id != post.id && q.title == form.title) = false) :
    ∃ s' post',
      edit_post_route pid form true s =
        .ok (.redirect ("show_post/" ++ toString post.id), s') ∧
      findPostById s'.db pid = some post' ∧
      post'.id = post.id ∧ post'.date = post.date ∧
      post'.title = form.title ∧ post'.subtitle = form.subtitle ∧
      post'.img_url = form.img_url ∧ post'.body = form.body ∧
      (∀ qid, qid ≠ pid → findPostById s'.db qid = findPostById s.db qid) ∧
      s'.db.users = s.db.users ∧ s'.db.comments = s.db.comments ∧
      s'.session = s.session := by
  have hpideq : post.id = pid := by simpa using List.find?_some hpost
  subst hpideq
  refine ⟨{ s with
            db := { s.db with
              posts := s.db.posts.map
                (fun q => if q.id == post.id then editedPost s form post else q) } },
          editedPost s form post, ?_, ?_, rfl, rfl, rfl, rfl, rfl, rfl, ?_, rfl, rfl, rfl⟩
  · rw [edit_post_route, admin_only_of_admin s hadmin]
    exact edit_post_ok s post.id form post hpost hfresh
  · unfold findPostById
    exact find?_map_replace s.db.posts post.id post (editedPost s form post) hpost rfl
  · intro qid hq
    unfold findPostById
    exact find?_map_replace_other s.db.posts post.id qid (editedPost s form post) hq rfl

/-- Witness for C7: the admin edits post 1 in the sample database. -/
theorem edit_post_frame_witness :
    ∃ s' post',
      edit_post_route 1 ⟨"New Title", "NS", "http://img2", "NB"⟩ true adminState =
        .ok (.redirect ("show_post/" ++ toString samplePost.id), s') ∧
      findPostById s'.db 1 = some post' ∧
      post'.id = samplePost.id ∧ post'.date = samplePost.date ∧
      post'.title = "New Title" ∧ post'.subtitle = "NS" ∧
      post'.img_url = "http://img2" ∧ post'.body = "NB" ∧
      (∀ qid, qid ≠ 1 → findPostById s'.db qid = findPostById adminState.db qid) ∧
      s'.db.users = adminState.db.users ∧ s'.db.comments = adminState.db.comments ∧
      s'.session = adminState.session :=
  edit_post_frame adminState 1 ⟨"New Title", "NS", "http://img2", "NB"⟩
    samplePost (by decide) (by decide) (by decide)

/-- A second sample post, and a database holding both posts. -/
def samplePost2 : BlogPost :=
  { id := 2, author_id := some 1, title := "Second Post", subtitle := "Sub2",
    date := "May 02, 2023", body := "Body2", img_url := "http://img2" }

/-- Admin session over a database with two posts. -/
def adminState2 : AppState :=
  { db := { baseDB with posts := [samplePost, samplePost2], nextPostId := 3 },
    session := some 1, flash := [] }

/-- C8: creating a post whose title already exists fails with the title
uniqueness constraint violation, and neither the new-post handler nor the
edit-post handler catches it: the error escapes the request. -/
theorem dup_title_unhandled (s : AppState) (form : CreatePostForm) (today : String)
    (hadmin : isAdmin s = true)
    (hdup : s.db.posts.any (fun p => p.title == form.title) = true) :
    new_post_route form true today s = .error (.constraintViolation "blog_posts.title") ∧
    (∀ pid post, findPostById s.db pid = some post →
        s.db.posts.any (fun q => q.id != post.id && q.title == form.title) = true →
        edit_post_route pid form true s =
          .error (.constraintViolation "blog_posts.title")) := by
  constructor
  · rw [new_post_route, admin_only_of_admin s hadmin]
    unfold add_new_post createPost
    simp [hdup]
    rfl
  · intro pid post hpost hdup2
    rw [edit_post_route, admin_only_of_admin s hadmin]
    unfold edit_post updatePost
    rw [hpost]
    simp [hdup2]
    rfl

/-- Witness for C8: the admin re-creates "First Post" and edits post 2
into the title of post 1. -/
theorem dup_title_unhandled_witness :
    new_post_route ⟨"First Post", "S2", "U2", "B2"⟩ true "May 03, 2023" adminState =
      .error (.constraintViolation "blog_posts.title") ∧
    edit_post_route 2 ⟨"First Post", "S2", "U2", "B2"⟩ true adminState2 =
      .error (.constraintViolation "blog_posts.title") :=
  ⟨(dup_title_unhandled adminState ⟨"First Post", "S2", "U2", "B2"⟩ "May 03, 2023"
      (by decide) (by decide)).1,
   (dup_title_unhandled adminState2 ⟨"First Post", "S2", "U2", "B2"⟩ "May 03, 2023"
      (by decide) (by decide)).2 2 samplePost2 (by decide) (by decide)⟩

lemma register_users_cases {s s' : AppState} {r : Response}
    (form : RegisterForm) (valid : Bool) (salt : Nat)
    (h : register form valid salt s = .ok (r, s')) :
    s'.db.users = s.db.users ∨
    ∃ u, s'.db.users = s.db.users ++ [u] ∧
      ∀ v ∈ s.db.users, (v.email == u.email) = false := by
  cases valid with
  | false =>
      unfold register at h
      simp at h
      left
      rw [← h.2]
  | true =>
      cases hfind : findUserByEmail s.db form.email with
      | some u =>
          rw [register_dup_eq s form salt u hfind] at h
          simp at h
          left
          rw [← h.2]
      | none =>
          rw [register_fresh_eq s form salt hfind] at h
          simp at h
          right
          refine ⟨registeredUser s.db form salt, by rw [← h.2], ?_⟩
          intro v hv
          have hany := findUserByEmail_none_any s.db form.email hfind
          rw [List.any_eq_false] at hany
          simpa [registeredUser] using hany v hv

lemma except_bind_ok {α β : Type} (a : α) (f : α → Except DBError β) :
    (Except.ok a >>= f) = f a := rfl

lemma login_db_eq {s s' : AppState} {r : Response} (form : LoginForm) (valid : Bool)
    (h : login form valid s = .ok (r, s')) : s'.db = s.db := by
  cases valid with
  | false =>
      unfold login at h
      simp at h
      rw [← h.2]
  | true =>
      unfold login at h
      cases hfind : findUserByEmail s.db form.email with
      | none =>
          rw [hfind] at h
          simp at h
          rw [← h.2]
      | some u =>
          rw [hfind] at h
          by_cases hpw : check_password_hash u.password form.password
          · simp [hpw] at h
            rw [← h.2]
          · simp [hpw] at h
            rw [← h.2]

lemma logout_db_eq {s s' : AppState} {r : Response}
    (h : logout s = .ok (r, s')) : s'.db = s.db := by
  unfold logout at h
  simp at h
  rw [← h.2]

lemma show_post_users_eq {s s' : AppState} {r : Response} (pid : Nat)
    (form : CommentForm) (valid : Bool)
    (h : show_post pid form valid s = .ok (r, s')) : s'.db.users = s.db.users := by
  cases valid with
  | false =>
      unfold show_post at h
      simp at h
      rw [← h.2]
  | true =>
      unfold show_post createComment at h
      cases hcu : current_user s with
      | none =>
          rw [hcu] at h
          simp at h
          rw [← h.2]
      | some u =>
          rw [hcu] at h
          simp at h
          rw [← h.2]

lemma add_new_post_users_eq {s s' : AppState} {r : Response}
    (form : CreatePostForm) (valid : Bool) (today : String)
    (h : add_new_post form valid today s = .ok (r, s')) :
    s'.db.users = s.db.users := by
  cases valid with
  | false =>
      unfold add_new_post at h
      simp at h
      rw [← h.2]
  | true =>
      unfold add_new_post createPost at h
      by_cases hany : s.db.posts.any (fun p => p.title == form.title)
      · rw [if_pos hany] at h
        simp at h
        cases h
      · rw [if_neg hany, except_bind_ok] at h
        simp at h
        rw [← h.2]

lemma edit_post_users_eq {s s' : AppState} {r : Response}
    (pid : Nat) (form : CreatePostForm) (valid : Bool)
    (h : edit_post pid form valid s = .ok (r, s')) :
    s'.db.users = s.db.users := by
  unfold edit_post updatePost at h
  cases hfind : findPostById s.db pid with
  | none =>
      rw [hfind] at h
      cases h
  | some post =>
      rw [hfind] at h
      cases valid with
      | false =>
          simp at h
          rw [← h.2]
      | true =>
          by_cases hany : s.db.posts.any
              (fun q => q.id != post.id && q.title == form.title)
          · simp [hany] at h
            cases h
          · simp only [if_true] at h
            rw [if_neg hany, except_bind_ok] at h
            simp at h
            rw [← h.2]

lemma delete_post_users_eq {s s' : AppState} {r : Response} (pid : Nat)
    (h : delete_post pid s = .ok (r, s')) :
    s'.db.users = s.db.users := by
  unfold delete_post deletePostById at h
  cases hfind : findPostById s.db pid with
  | none =>
      rw [hfind] at h
      cases h
  | some post =>
      rw [hfind] at h
      simp at h
      rw [← h.2]

lemma admin_only_users_eq {s s' : AppState} {r : Response}
    (f : AppState → Except DBError (Response × AppState))
    (hf : ∀ r' s'', f s = .ok (r', s'') → s''.db.users = s.db.users)
    (h : admin_only f s = .ok (r, s')) :
    s'.db.users = s.db.users := by
  unfold admin_only at h
  cases hcu : current_user s with
  | none =>
      rw [hcu] at h
      simp at h
      rw [← h.2]
  | some u =>
      rw [hcu] at h
      by_cases hid : u.id = 1
      · simp [hid] at h
        exact hf r s' h
      · simp [hid] at h
        rw [← h.2]

/-- C9: in every state reachable from startup through the exposed
operations, no two User records share an email: registration refuses a
duplicate email before creating, the persistence layer enforces the
unique constraint, and no other operation touches the users table. -/
theorem email_uniqueness_invariant (s : AppState) (h : Reachable s) :
    s.db.users.Pairwise (fun a b => a.email ≠ b.email) := by
  induction h with
  | init => simp [initialState, DB.empty]
  | stepRegister form valid salt hs heq ih =>
      rcases register_users_cases form valid salt heq with h1 | ⟨u, h1, h2⟩
      · rw [h1]
        exact ih
      · rw [h1, List.pairwise_append]
        refine ⟨ih, by simp, ?_⟩
        intro a ha b hb
        simp only [List.mem_singleton] at hb
        subst hb
        intro hcon
        have hfalse := h2 a ha
        rw [hcon] at hfalse
        simp at hfalse
  | stepLogin form valid hs heq ih =>
      rw [login_db_eq form valid heq]
      exact ih
  | stepLogout hs heq ih =>
      rw [logout_db_eq heq]
      exact ih
  | stepShowPost pid form valid hs heq ih =>
      rw [show_post_users_eq pid form valid heq]
      exact ih
  | stepNewPost form valid today hs heq ih =>
      rw [admin_only_users_eq _
            (fun r' s'' h' => add_new_post_users_eq form valid today h') heq]
      exact ih
  | stepEditPost pid form valid hs heq ih =>
      rw [admin_only_users_eq _
            (fun r' s'' h' => edit_post_users_eq pid form valid h') heq]
      exact ih
  | stepDeletePost pid hs heq ih =>
      rw [admin_only_users_eq _
            (fun r' s'' h' => delete_post_users_eq pid h') heq]
      exact ih

/-- The state after registering the very first account on a fresh
database. -/
def state1 : AppState :=
  { db := { users := [{ id := 1, name := "Root", email := "root@mail.com",
                        password := { salt := 3, key := "rootpw" } }],
            posts := [], comments := [], nextUserId := 2, nextPostId := 1,
            nextCommentId := 1 },
    session := some 1, flash := [] }

/-- Witness for C9 at a reachable state with one registered user. -/
theorem email_uniqueness_invariant_witness :
    state1.db.users.Pairwise (fun a b => a.email ≠ b.email) :=
  email_uniqueness_invariant state1
    (Reachable.stepRegister ⟨"Root", "root@mail.com", "rootpw"⟩ true 3
      Reachable.init rfl)

end Blog
